import Mathlib

/-
Verification of the Ghost Bus Detector backend against its design document.

Shallow embedding of:
  src/backend/app/detector.py          (GhostBusDetector)
  src/backend/app/websocket_manager.py (ConnectionManager)
  src/backend/app/storage.py           (RedisStorage)
  src/backend/app/models.py            (BusUpdate)
  src/backend/app/main.py              (HTTP read handlers)

Python floats are modelled as real numbers; `time.time()` is passed as an
explicit `now` parameter so that each evaluation uses a single captured
wall-clock value, exactly as the code captures `current_time` once.
-/

/-- A report as produced by `models.BusUpdate.dict()`. All required fields of
`BusUpdate` are present; `timestamp` always exists because the pydantic model
fills it with `time.time()` by default. -/
structure BusData where
  id : String
  lat : ℝ
  lon : ℝ
  route_id : String
  speed : Option ℝ
  timestamp : ℝ
  bearing : Option ℝ

/-- One element of `GhostBusDetector.position_history[bus_id]`, as built by
`_store_position_history` (`speed` defaults to 0 when the report has none). -/
structure PosEntry where
  lat : ℝ
  lon : ℝ
  timestamp : ℝ
  speed : ℝ

/-- The detector's mutable per-vehicle state: `self.position_history` and
`self.speed_history`. A vehicle id absent from the Python dict is modelled as
mapping to `[]` (the code never stores an empty list, so the two are
indistinguishable to every reader of the state). -/
structure DetectorState where
  position_history : String → List PosEntry
  speed_history : String → List ℝ

/-- `self.max_history_length = 60`. -/
def max_history_length : ℕ := 60

/-- `self.stale_threshold = 120`. -/
def stale_threshold : ℝ := 120

/-- `self.stationary_threshold = 60`. -/
def stationary_threshold : ℝ := 60

/-- `math.radians`: degrees to radians. -/
noncomputable def radians (x : ℝ) : ℝ := x * Real.pi / 180

/-- `GhostBusDetector._haversine_distance` with Earth radius R = 6371000 m:
`2 * R * asin(sqrt(sin(dlat/2)^2 + cos(lat1) * cos(lat2) * sin(dlon/2)^2))`. -/
noncomputable def haversine_distance (lat1 lon1 lat2 lon2 : ℝ) : ℝ :=
  2 * 6371000 * Real.arcsin (Real.sqrt
    (Real.sin (radians (lat2 - lat1) / 2) ^ 2 +
      Real.cos (radians lat1) * Real.cos (radians lat2) *
        Real.sin (radians (lon2 - lon1) / 2) ^ 2))

/-- `GhostBusDetector._calculate_severity`: empty tag list is "info";
any tag in {stale_data, off_route} gives "critical"; otherwise any tag in
{stationary_non_stop, speed_spike, speed_drop} gives "warning";
otherwise "info". -/
def calculate_severity (anomaly_types : List String) : String :=
  if anomaly_types = [] then "info"
  else if anomaly_types.any (fun t => t == "stale_data" || t == "off_route") then
    "critical"
  else if anomaly_types.any
      (fun t => t == "stationary_non_stop" || t == "speed_spike" || t == "speed_drop") then
    "warning"
  else "info"

/-- Squares of sines of opposite angular differences agree (used for the
symmetry of the haversine formula). -/
theorem sin_sq_radians_sub_comm (x y : ℝ) :
    Real.sin (radians (x - y) / 2) ^ 2 = Real.sin (radians (y - x) / 2) ^ 2 := by
  have h : radians (x - y) / 2 = -(radians (y - x) / 2) := by
    unfold radians; ring
  rw [h, Real.sin_neg]; ring

/-- Claim C7: the haversine distance is total and deterministic (it is a plain
function of its four real arguments), vanishes on identical points, and is
symmetric under swapping the two points. -/
theorem claim_C7_haversine :
    (∀ lat lon : ℝ, haversine_distance lat lon lat lon = 0) ∧
    (∀ lat1 lon1 lat2 lon2 : ℝ,
      haversine_distance lat1 lon1 lat2 lon2 = haversine_distance lat2 lon2 lat1 lon1) := by
  constructor
  · intro lat lon
    unfold haversine_distance radians
    simp [Real.sqrt_zero, Real.arcsin_zero]
  · intro lat1 lon1 lat2 lon2
    unfold haversine_distance
    rw [sin_sq_radians_sub_comm lat2 lat1, sin_sq_radians_sub_comm lon2 lon1,
      mul_comm (Real.cos (radians lat1)) (Real.cos (radians lat2))]

/-- Claim C6: the severity classifier maps the empty set to info, any set
meeting {stale_data, off_route} to critical (checked first), any remaining set
meeting {stationary_non_stop, speed_spike, speed_drop} to warning, and
everything else to info; in particular on the three quoted instances. -/
theorem claim_C6_severity :
    (∀ tags : List String,
      (tags = [] → calculate_severity tags = "info") ∧
      ((∃ t ∈ tags, t = "stale_data" ∨ t = "off_route") →
        calculate_severity tags = "critical") ∧
      (tags ≠ [] → ¬ (∃ t ∈ tags, t = "stale_data" ∨ t = "off_route") →
        (∃ t ∈ tags, t = "stationary_non_stop" ∨ t = "speed_spike" ∨ t = "speed_drop") →
        calculate_severity tags = "warning") ∧
      (tags ≠ [] → ¬ (∃ t ∈ tags, t = "stale_data" ∨ t = "off_route") →
        ¬ (∃ t ∈ tags, t = "stationary_non_stop" ∨ t = "speed_spike" ∨ t = "speed_drop") →
        calculate_severity tags = "info")) ∧
    calculate_severity ["stale_data"] = "critical" ∧
    calculate_severity ["speed_spike"] = "warning" ∧
    calculate_severity [] = "info" := by
  refine ⟨fun tags => ⟨?_, ?_, ?_, ?_⟩, by decide, by decide, by decide⟩
  · intro h; simp [calculate_severity, h]
  · intro h
    rcases h with ⟨t, ht, hc⟩
    have hcrit : tags.any (fun t => t == "stale_data" || t == "off_route") = true := by
      simp only [List.any_eq_true, Bool.or_eq_true, beq_iff_eq]
      exact ⟨t, ht, hc⟩
    have hne : tags ≠ [] := by
      intro hempty; rw [hempty] at ht; simp at ht
    simp [calculate_severity, hne, hcrit]
  · intro hne hc hw
    have hcrit : ¬ tags.any (fun t => t == "stale_data" || t == "off_route") = true := by
      simp only [List.any_eq_true, Bool.or_eq_true, beq_iff_eq]
      exact hc
    have hwarn : tags.any
        (fun t => t == "stationary_non_stop" || t == "speed_spike" || t == "speed_drop")
        = true := by
      simp only [List.any_eq_true, Bool.or_eq_true, beq_iff_eq]
      rcases hw with ⟨t, ht, h3⟩
      exact ⟨t, ht, by tauto⟩
    simp only [calculate_severity, if_neg hne, if_neg hcrit, if_pos hwarn]
  · intro hne hc hw
    have hcrit : ¬ tags.any (fun t => t == "stale_data" || t == "off_route") = true := by
      simp only [List.any_eq_true, Bool.or_eq_true, beq_iff_eq]
      exact hc
    have hwarn : ¬ tags.any
        (fun t => t == "stationary_non_stop" || t == "speed_spike" || t == "speed_drop")
        = true := by
      simp only [List.any_eq_true, Bool.or_eq_true, beq_iff_eq]
      intro h
      rcases h with ⟨t, ht, h3⟩
      exact hw ⟨t, ht, by tauto⟩
    simp only [calculate_severity, if_neg hne, if_neg hcrit, if_neg hwarn]

/-- Witness for C6 at concrete tag sets, exercising each branch. -/
theorem claim_C6_severity_witness :
    calculate_severity ["stale_data"] = "critical" ∧
    calculate_severity ["speed_spike"] = "warning" ∧
    calculate_severity ["mystery_tag"] = "info" ∧
    calculate_severity [] = "info" := by
  refine ⟨?_, ?_, ?_, ?_⟩
  · exact (claim_C6_severity.1 ["stale_data"]).2.1 ⟨"stale_data", by simp, Or.inl rfl⟩
  · exact (claim_C6_severity.1 ["speed_spike"]).2.2.1 (by simp)
      (by rintro ⟨t, ht, hc⟩; simp at ht; subst ht; rcases hc with h | h <;> simp at h)
      ⟨"speed_spike", by simp, Or.inr (Or.inl rfl)⟩
  · exact (claim_C6_severity.1 ["mystery_tag"]).2.2.2 (by simp)
      (by rintro ⟨t, ht, hc⟩; simp at ht; subst ht; rcases hc with h | h <;> simp at h)
      (by rintro ⟨t, ht, hc⟩; simp at ht; subst ht
          rcases hc with h | h | h <;> simp at h)
  · exact (claim_C6_severity.1 []).1 rfl

/-- The last `n` elements of a list. -/
def lastN (n : ℕ) (l : List α) : List α := l.drop (l.length - n)

/-- The trimming step shared by `_store_position_history` and
`_detect_speed_anomaly`: append, then `if len > max: keep list[-max:]`. -/
def recordCap (n : ℕ) (e : α) (h : List α) : List α :=
  if n < (h ++ [e]).length then (h ++ [e]).drop ((h ++ [e]).length - n) else h ++ [e]

theorem recordCap_eq_lastN (n : ℕ) (e : α) (h : List α) :
    recordCap n e h = lastN n (h ++ [e]) := by
  unfold recordCap lastN
  split
  · rfl
  · rename_i hle
    have h0 : (h ++ [e]).length - n = 0 := by omega
    rw [h0, List.drop_zero]

theorem lastN_length (n : ℕ) (l : List α) : (lastN n l).length = min n l.length := by
  unfold lastN
  rw [List.length_drop]
  omega

theorem lastN_append_last (n : ℕ) (hn : 1 ≤ n) (a : List α) (e : α) (h : n ≤ a.length) :
    lastN n (a ++ [e]) = a.drop (a.length + 1 - n) ++ [e] := by
  unfold lastN
  have hlen : (a ++ [e]).length = a.length + 1 := by simp
  rw [hlen]
  exact List.drop_append_of_le_length (by omega)

theorem lastN_append_singleton (n : ℕ) (hn : 1 ≤ n) (l : List α) (e : α) :
    lastN n (lastN n l ++ [e]) = lastN n (l ++ [e]) := by
  by_cases h : l.length ≤ n
  · have hl : lastN n l = l := by
      unfold lastN
      rw [Nat.sub_eq_zero_of_le h, List.drop_zero]
    rw [hl]
  · push_neg at h
    have hlen : (lastN n l).length = n := by rw [lastN_length]; omega
    rw [lastN_append_last n hn (lastN n l) e (by omega),
      lastN_append_last n hn l e (by omega), hlen]
    congr 1
    unfold lastN
    rw [List.drop_drop]
    have hidx : l.length - n + (n + 1 - n) = l.length + 1 - n := by omega
    rw [hidx]

/-- Folding the capped-append over any sample sequence from the empty window
yields exactly the last `n` samples (for positive capacity `n`). -/
theorem foldl_recordCap_eq_lastN (n : ℕ) (hn : 1 ≤ n) (samples : List α) :
    List.foldl (fun h e => recordCap n e h) [] samples = lastN n samples := by
  induction samples using List.reverseRecOn with
  | nil => simp [lastN]
  | append_singleton xs e ih =>
    rw [List.foldl_append]
    simp only [List.foldl_cons, List.foldl_nil]
    rw [ih, recordCap_eq_lastN, lastN_append_singleton n hn]

/-- The history entry `_store_position_history` builds from a report
(`speed` defaults to 0 when absent). -/
def position_entry_of (bus : BusData) : PosEntry :=
  { lat := bus.lat, lon := bus.lon, timestamp := bus.timestamp, speed := bus.speed.getD 0 }

/-- `GhostBusDetector._store_position_history`: append the entry to the
report's vehicle window, then trim to the last `max_history_length` entries. -/
def store_position_history (st : DetectorState) (bus : BusData) : DetectorState :=
  { st with position_history := fun i =>
      if i = bus.id then
        recordCap max_history_length (position_entry_of bus) (st.position_history bus.id)
      else st.position_history i }

theorem store_position_history_speed (st : DetectorState) (bus : BusData) :
    (store_position_history st bus).speed_history = st.speed_history := rfl

theorem foldl_store_position_history (vid : String) :
    ∀ (reports : List BusData) (st : DetectorState), (∀ r ∈ reports, r.id = vid) →
      (List.foldl store_position_history st reports).position_history vid =
        List.foldl (fun h e => recordCap max_history_length e h)
          (st.position_history vid) (reports.map position_entry_of) := by
  intro reports
  induction reports with
  | nil => intro st _; rfl
  | cons r rest ih =>
    intro st hids
    have hr : r.id = vid := hids r (by simp)
    have hrest : ∀ x ∈ rest, x.id = vid := fun x hx => hids x (by simp [hx])
    simp only [List.foldl_cons, List.map_cons]
    rw [ih (store_position_history st r) hrest]
    simp [store_position_history, hr]

/-- Claim C4: for every vehicle id and sequence of insertions (reports for that
id, starting from an empty window), the History Window never exceeds the
capacity N = 60, and it contains exactly the last N samples in insertion order
(the `drop` evicts the oldest samples first). -/
theorem claim_C4_window (st : DetectorState) (vid : String) (reports : List BusData)
    (hids : ∀ r ∈ reports, r.id = vid) (hempty : st.position_history vid = []) :
    ((List.foldl store_position_history st reports).position_history vid).length ≤ 60 ∧
    (List.foldl store_position_history st reports).position_history vid =
      (reports.map position_entry_of).drop (reports.length - 60) := by
  have h1 := foldl_store_position_history vid reports st hids
  rw [hempty] at h1
  rw [foldl_recordCap_eq_lastN max_history_length (by decide : 1 ≤ max_history_length)] at h1
  constructor
  · rw [h1, lastN_length]
    have : max_history_length = 60 := rfl
    omega
  · rw [h1]
    unfold lastN
    rw [List.length_map]
    rfl

/-- A detector state with empty histories for every vehicle. -/
def empty_state : DetectorState :=
  { position_history := fun _ => [], speed_history := fun _ => [] }

/-- A single concrete report for vehicle B1. -/
def bus_c4 : BusData :=
  { id := "B1", lat := 39, lon := -105, route_id := "R1",
    speed := some 25, timestamp := 1000, bearing := none }

/-- Witness for C4: one insertion into an empty window for vehicle B1. -/
theorem claim_C4_window_witness :
    ((List.foldl store_position_history empty_state [bus_c4]).position_history "B1").length
      ≤ 60 ∧
    (List.foldl store_position_history empty_state [bus_c4]).position_history "B1" =
      ([bus_c4].map position_entry_of).drop ([bus_c4].length - 60) :=
  claim_C4_window empty_state "B1" [bus_c4] (by intro r hr; simp at hr; subst hr; rfl) rfl

/-- `statistics.mean`. -/
noncomputable def mean (l : List ℝ) : ℝ := l.sum / l.length

open Classical in
/-- `GhostBusDetector._detect_speed_anomaly`: a report without a speed value is
exempt; otherwise the current speed is appended to the vehicle's speed history
(trimmed to the last 60); with fewer than 5 recorded samples no tag; else with
the mean taken over the updated history, `speed_spike` when mean > 0 and
current > 3 x mean, else `speed_drop` when mean > 10 and current < 0.3 x mean.
Returns the optional tag together with the updated state. -/
noncomputable def detect_speed_anomaly (st : DetectorState) (bus_id : String)
    (current_speed : Option ℝ) : Option String × DetectorState :=
  match current_speed with
  | none => (none, st)
  | some s =>
    let newHist := recordCap max_history_length s (st.speed_history bus_id)
    let st2 : DetectorState :=
      { st with speed_history := fun i => if i = bus_id then newHist else st.speed_history i }
    if newHist.length < 5 then (none, st2)
    else if mean newHist > 0 ∧ s > mean newHist * 3 then (some "speed_spike", st2)
    else if mean newHist > 10 ∧ s < mean newHist * (3 / 10) then (some "speed_drop", st2)
    else (none, st2)

/-- Junk entry used only to make `headD`/`getLastD` total; every reachable use
is guarded by a length bound, as in the source. -/
def default_pos : PosEntry := { lat := 0, lon := 0, timestamp := 0, speed := 0 }

/-- Cumulative consecutive-pair haversine distance, the loop of
`_is_stationary_at_non_stop` (and `get_bus_statistics`). -/
noncomputable def path_distance : List PosEntry → ℝ
  | a :: b :: rest => haversine_distance a.lat a.lon b.lat b.lon + path_distance (b :: rest)
  | _ => 0

/-- `GhostBusDetector._is_stationary_at_non_stop`: false for an unknown vehicle
or fewer than 3 recorded samples; over the last 5 samples (`history[-5:]`,
which must again have at least 3 entries), true exactly when the cumulative
path distance is below 20 m and the time span from first to last of those
samples exceeds `stationary_threshold` = 60 s. The "near a bus stop" check in
the source is a comment only: the rule ignores stop locations. -/
def is_stationary_at_non_stop (st : DetectorState) (bus_id : String) : Prop :=
  3 ≤ (st.position_history bus_id).length ∧
  3 ≤ (lastN 5 (st.position_history bus_id)).length ∧
  path_distance (lastN 5 (st.position_history bus_id)) < 20 ∧
  ((lastN 5 (st.position_history bus_id)).getLastD default_pos).timestamp -
      ((lastN 5 (st.position_history bus_id)).headD default_pos).timestamp >
    stationary_threshold

/-- `GhostBusDetector._is_off_route`: outside the Colorado bounding box
lat in [37, 41], lon in [-109, -102]. -/
def is_off_route (bus : BusData) : Prop :=
  ¬ (37 ≤ bus.lat ∧ bus.lat ≤ 41 ∧ -109 ≤ bus.lon ∧ bus.lon ≤ -102)

/-- The triple returned by `GhostBusDetector.detect_anomalies`, together with
the detector state after the call (the Python method mutates `self`). -/
structure DetectResult where
  is_ghost : Bool
  anomaly_types : List String
  severity : String
  state : DetectorState

open Classical in
/-- `GhostBusDetector.detect_anomalies`: with `now` the single wall-clock value
captured at entry, append `stale_data` when `now - timestamp > 120`; record the
position sample; append `stationary_non_stop` per the stationary rule on the
updated window; run the speed rule (which records the speed sample) and append
its optional tag; append `off_route` per the geofence; `is_ghost` is
"some tag produced" and severity comes from `_calculate_severity`. -/
noncomputable def detect_anomalies (now : ℝ) (st : DetectorState) (bus : BusData) :
    DetectResult :=
  let st1 := store_position_history st bus
  let sres := detect_speed_anomaly st1 bus.id bus.speed
  let tags : List String :=
    (if now - bus.timestamp > stale_threshold then ["stale_data"] else []) ++
    ((if is_stationary_at_non_stop st1 bus.id then ["stationary_non_stop"] else []) ++
      (sres.1.toList ++
        (if is_off_route bus then ["off_route"] else [])))
  { is_ghost := decide (0 < tags.length),
    anomaly_types := tags,
    severity := calculate_severity tags,
    state := sres.2 }

theorem speed_result_cases (st : DetectorState) (bus_id : String) (sp : Option ℝ) :
    (detect_speed_anomaly st bus_id sp).1 = none ∨
    (detect_speed_anomaly st bus_id sp).1 = some "speed_spike" ∨
    (detect_speed_anomaly st bus_id sp).1 = some "speed_drop" := by
  unfold detect_speed_anomaly
  cases sp with
  | none => simp
  | some s =>
    dsimp only
    split_ifs <;> simp

theorem mem_anomalies_stale (now : ℝ) (st : DetectorState) (bus : BusData) :
    "stale_data" ∈ (detect_anomalies now st bus).anomaly_types ↔
      now - bus.timestamp > stale_threshold := by
  unfold detect_anomalies
  dsimp only
  rcases speed_result_cases (store_position_history st bus) bus.id bus.speed with h | h | h <;>
    rw [h] <;> split_ifs <;> simp_all

theorem mem_anomalies_stationary (now : ℝ) (st : DetectorState) (bus : BusData) :
    "stationary_non_stop" ∈ (detect_anomalies now st bus).anomaly_types ↔
      is_stationary_at_non_stop (store_position_history st bus) bus.id := by
  unfold detect_anomalies
  dsimp only
  rcases speed_result_cases (store_position_history st bus) bus.id bus.speed with h | h | h <;>
    rw [h] <;> split_ifs <;> simp_all

theorem mem_anomalies_spike (now : ℝ) (st : DetectorState) (bus : BusData) :
    "speed_spike" ∈ (detect_anomalies now st bus).anomaly_types ↔
      (detect_speed_anomaly (store_position_history st bus) bus.id bus.speed).1 =
        some "speed_spike" := by
  unfold detect_anomalies
  dsimp only
  rcases speed_result_cases (store_position_history st bus) bus.id bus.speed with h | h | h <;>
    rw [h] <;> split_ifs <;> simp_all

theorem anomalies_subset (now : ℝ) (st : DetectorState) (bus : BusData) :
    ∀ t ∈ (detect_anomalies now st bus).anomaly_types,
      t = "stale_data" ∨ t = "stationary_non_stop" ∨ t = "speed_spike" ∨
        t = "speed_drop" ∨ t = "off_route" := by
  unfold detect_anomalies
  dsimp only
  rcases speed_result_cases (store_position_history st bus) bus.id bus.speed with h | h | h <;>
    rw [h] <;> split_ifs <;> intro t ht <;> simp_all <;> tauto

/-- Claim C3: the `stale_data` tag is produced exactly when the single captured
`now` exceeds the report timestamp by strictly more than 120 seconds; hence a
121-second-old report always gets the tag and 119- or 120-second-old reports
never do. -/
theorem claim_C3_staleness (now : ℝ) (st : DetectorState) (bus : BusData) :
    "stale_data" ∈ (detect_anomalies now st bus).anomaly_types ↔
      now - bus.timestamp > 120 :=
  mem_anomalies_stale now st bus

/-- Claim C5: after the current report is inserted, `stationary_non_stop` is
produced exactly when the window holds at least 3 samples, the cumulative
consecutive-pair haversine distance over the last 5 samples is strictly below
20 m, and the time span between the first and last of those samples strictly
exceeds 60 s; in particular never with fewer than 3 samples, and with no
reference to any real stop location. -/
theorem claim_C5_stationary (now : ℝ) (st : DetectorState) (bus : BusData) :
    "stationary_non_stop" ∈ (detect_anomalies now st bus).anomaly_types ↔
      (3 ≤ ((store_position_history st bus).position_history bus.id).length ∧
        path_distance
          (lastN 5 ((store_position_history st bus).position_history bus.id)) < 20 ∧
        ((lastN 5 ((store_position_history st bus).position_history bus.id)).getLastD
              default_pos).timestamp -
            ((lastN 5 ((store_position_history st bus).position_history bus.id)).headD
              default_pos).timestamp > 60) := by
  rw [mem_anomalies_stationary]
  unfold is_stationary_at_non_stop
  constructor
  · rintro ⟨h1, _, h3, h4⟩
    exact ⟨h1, h3, h4⟩
  · rintro ⟨h1, h3, h4⟩
    refine ⟨h1, ?_, h3, h4⟩
    rw [lastN_length]
    omega

theorem severity_info_iff_of_subset (tags : List String)
    (hsub : ∀ t ∈ tags, t = "stale_data" ∨ t = "stationary_non_stop" ∨ t = "speed_spike" ∨
      t = "speed_drop" ∨ t = "off_route") :
    (calculate_severity tags = "info" ↔ tags = []) := by
  constructor
  · intro hsev
    by_contra hne
    obtain ⟨t0, ht0⟩ : ∃ t, t ∈ tags := by
      cases tags with
      | nil => exact absurd rfl hne
      | cons a l => exact ⟨a, by simp⟩
    unfold calculate_severity at hsev
    rw [if_neg hne] at hsev
    by_cases hc : tags.any (fun t => t == "stale_data" || t == "off_route") = true
    · rw [if_pos hc] at hsev
      exact absurd hsev (by decide)
    · rw [if_neg hc] at hsev
      by_cases hw : tags.any
          (fun t => t == "stationary_non_stop" || t == "speed_spike" || t == "speed_drop")
          = true
      · rw [if_pos hw] at hsev
        exact absurd hsev (by decide)
      · simp only [List.any_eq_true, Bool.or_eq_true, beq_iff_eq] at hc hw
        push_neg at hc hw
        rcases hsub t0 ht0 with h | h | h | h | h
        · exact (hc t0 ht0).1 h
        · exact (hw t0 ht0).1.1 h
        · exact (hw t0 ht0).1.2 h
        · exact (hw t0 ht0).2 h
        · exact (hc t0 ht0).2 h
  · intro h
    rw [h]
    rfl

/-- Claim C10: for every input report and detector state, `is_ghost` holds
exactly when the computed severity is not "info": every producible tag lies in
the critical or warning set, so the final else-branch of
`_calculate_severity` is unreachable for a non-empty tag list. -/
theorem claim_C10_ghost_iff (now : ℝ) (st : DetectorState) (bus : BusData) :
    ((detect_anomalies now st bus).is_ghost = true ↔
      (detect_anomalies now st bus).severity ≠ "info") := by
  have hsub := anomalies_subset now st bus
  have hsev : (detect_anomalies now st bus).severity =
      calculate_severity (detect_anomalies now st bus).anomaly_types := rfl
  have hg : (detect_anomalies now st bus).is_ghost =
      decide (0 < (detect_anomalies now st bus).anomaly_types.length) := rfl
  rw [hsev, hg, Ne, severity_info_iff_of_subset _ hsub]
  simp [List.length_pos]

theorem detect_speed_anomaly_spike_iff (st : DetectorState) (bus_id : String) (s : ℝ)
    (hlen : (st.speed_history bus_id).length = 4)
    (hmean : mean (st.speed_history bus_id) = 20) :
    ((detect_speed_anomaly st bus_id (some s)).1 = some "speed_spike" ↔ s > 120) := by
  unfold detect_speed_anomaly
  dsimp only
  have hcap : recordCap max_history_length s (st.speed_history bus_id) =
      st.speed_history bus_id ++ [s] := by
    unfold recordCap
    rw [if_neg (by simp [max_history_length, hlen])]
  rw [hcap]
  have hlen5 : (st.speed_history bus_id ++ [s]).length = 5 := by simp [hlen]
  have hsum : (st.speed_history bus_id).sum = 80 := by
    unfold mean at hmean
    rw [hlen] at hmean
    field_simp at hmean
    linarith
  have hm : mean (st.speed_history bus_id ++ [s]) = (80 + s) / 5 := by
    unfold mean
    rw [List.sum_append, hsum, hlen5]
    norm_num
  rw [if_neg (by rw [hlen5]; norm_num)]
  by_cases h1 : mean (st.speed_history bus_id ++ [s]) > 0 ∧
      s > mean (st.speed_history bus_id ++ [s]) * 3
  · rw [if_pos h1]
    rcases h1 with ⟨_, hb⟩
    rw [hm] at hb
    simp only [true_iff]
    nlinarith
  · rw [if_neg h1]
    have hnot : ¬ s > 120 := by
      intro hs
      exact h1 ⟨by rw [hm]; nlinarith, by rw [hm]; nlinarith⟩
    by_cases h2 : mean (st.speed_history bus_id ++ [s]) > 10 ∧
        s < mean (st.speed_history bus_id ++ [s]) * (3 / 10)
    · rw [if_pos h2]
      simp [hnot]
    · rw [if_neg h2]
      simp [hnot]

/-- Claim C2 (amended): `_detect_speed_anomaly` appends the current speed
before taking the mean, so the mean is over the window including the current
sample. With 4 prior samples of mean 20 (5 samples total, meeting the minimum),
submitting speed s yields `speed_spike` exactly when s > 120: in particular
speed 61 does not yield the tag (61 is not above 3 x 28.2) and neither does
speed 60. -/
theorem claim_C2_amended (now : ℝ) (st : DetectorState) (bus : BusData) (s : ℝ)
    (hsp : bus.speed = some s)
    (hlen : (st.speed_history bus.id).length = 4)
    (hmean : mean (st.speed_history bus.id) = 20) :
    ("speed_spike" ∈ (detect_anomalies now st bus).anomaly_types ↔ s > 120) := by
  rw [mem_anomalies_spike, hsp]
  exact detect_speed_anomaly_spike_iff (store_position_history st bus) bus.id s hlen hmean

/-- A detector state whose vehicle B1 has exactly the four prior speed samples
20, 20, 20, 20 (mean 20) and no position history. -/
def st_c2 : DetectorState :=
  { position_history := fun _ => [],
    speed_history := fun i => if i = "B1" then [20, 20, 20, 20] else [] }

/-- A fresh report for vehicle B1 carrying speed `s`, inside the geofence. -/
def bus_c2 (s : ℝ) : BusData :=
  { id := "B1", lat := 39, lon := -105, route_id := "R1",
    speed := some s, timestamp := 1000, bearing := none }

/-- Counterexample to claim C2 as stated: vehicle B1 has 4 prior speed samples
of mean 20, yet a report with speed 61 does not produce `speed_spike`, because
the code's mean includes the current sample (mean 28.2, and 61 is not greater
than 84.6). -/
theorem claim_C2_counterexample :
    (st_c2.speed_history "B1").length = 4 ∧
    mean (st_c2.speed_history "B1") = 20 ∧
    "speed_spike" ∉ (detect_anomalies 1000 st_c2 (bus_c2 61)).anomaly_types := by
  have hlen : (st_c2.speed_history "B1").length = 4 := by simp [st_c2]
  have hmean : mean (st_c2.speed_history "B1") = 20 := by
    simp [st_c2, mean]
    norm_num
  refine ⟨hlen, hmean, ?_⟩
  rw [mem_anomalies_spike]
  rw [show (bus_c2 61).speed = some 61 from rfl]
  rw [detect_speed_anomaly_spike_iff (store_position_history st_c2 (bus_c2 61))
    (bus_c2 61).id 61 hlen hmean]
  norm_num

/-- Witness for the amended C2 at a concrete input: with the four priors of
mean 20 and current speed 121, the tag is produced (121 > 120). -/
theorem claim_C2_amended_witness :
    ("speed_spike" ∈ (detect_anomalies 1000 st_c2 (bus_c2 121)).anomaly_types ↔
      (121 : ℝ) > 120) :=
  claim_C2_amended 1000 st_c2 (bus_c2 121) 121 rfl (by simp [st_c2, bus_c2])
    (by simp [st_c2, bus_c2, mean]; norm_num)

/-- A stored report for vehicle B1 with no speed value. -/
def bus_c1 : BusData :=
  { id := "B1", lat := 39, lon := -105, route_id := "R1",
    speed := none, timestamp := 1000, bearing := none }

/-- Claim C1 is violated by the code: the `GET /buses` and `GET /buses/{id}`
handlers and the attach-time snapshot in `main.py` each call
`detector.detect_anomalies(bus.dict())` on every stored vehicle, and that call
records a position sample, so serving a single read grows the vehicle's
History Window (here from 0 to 1 entries) instead of leaving it unchanged. -/
theorem claim_C1_read_mutates :
    (empty_state.position_history "B1").length = 0 ∧
    ((detect_anomalies 1000 empty_state bus_c1).state.position_history "B1").length = 1 := by
  constructor
  · rfl
  · rfl

/-- An observer connection handle (`WebSocket` objects are opaque; only
identity is relevant to the registry logic). -/
abbrev Conn := ℕ

/-- `ConnectionManager.disconnect`: remove the connection from
`active_connections` if it is registered. -/
def disconnect (active : List Conn) (c : Conn) : List Conn :=
  if c ∈ active then active.erase c else active

/-- `ConnectionManager.broadcast`, with `ok c = true` meaning `send_json`
succeeded for connection `c` (an exception is `ok c = false`). The loop
attempts delivery to every registered connection in order, collecting the
failed ones, and afterwards disconnects exactly those; the function returns
(connections that received the message, registry after the broadcast). -/
def broadcast (ok : Conn → Bool) (active : List Conn) : List Conn × List Conn :=
  if active = [] then ([], active)
  else
    (active.filter ok,
      (active.filter (fun c => ! ok c)).foldl disconnect active)

theorem disconnect_eq_erase (active : List Conn) (c : Conn) :
    disconnect active c = active.erase c := by
  unfold disconnect
  split
  · rfl
  · exact (List.erase_of_not_mem (by assumption)).symm

theorem foldl_erase_cons_of_not_mem (c : Conn) (ds : List Conn) (h : c ∉ ds) :
    ∀ l : List Conn, ds.foldl (fun acc x => acc.erase x) (c :: l) =
      c :: ds.foldl (fun acc x => acc.erase x) l := by
  induction ds with
  | nil => intro l; rfl
  | cons d rest ih =>
    intro l
    have hdc : d ≠ c := fun he => h (by simp [he])
    have hrest : c ∉ rest := fun hr => h (by simp [hr])
    simp only [List.foldl_cons]
    rw [List.erase_cons_tail (by simp [Ne.symm hdc])]
    exact ih hrest (l.erase d)

theorem foldl_disconnect_filter (ok : Conn → Bool) (l : List Conn) (h : l.Nodup) :
    (l.filter (fun c => ! ok c)).foldl disconnect l = l.filter ok := by
  have hd : disconnect = fun acc (c : Conn) => acc.erase c := by
    funext acc c
    exact disconnect_eq_erase acc c
  rw [hd]
  induction l with
  | nil => rfl
  | cons c rest ih =>
    rw [List.nodup_cons] at h
    obtain ⟨hc, hrest⟩ := h
    by_cases hok : ok c
    · rw [List.filter_cons_of_neg (by simp [hok]), List.filter_cons_of_pos (by simp [hok])]
      rw [foldl_erase_cons_of_not_mem c _
        (fun hmem => hc (List.mem_of_mem_filter hmem)) rest]
      rw [ih hrest]
    · rw [List.filter_cons_of_pos (by simp [hok]), List.filter_cons_of_neg (by simp [hok])]
      simp only [List.foldl_cons, List.erase_cons_head]
      rw [ih hrest]

/-- Claim C8: broadcasting one message over a duplicate-free registry delivers
it to exactly the connections whose send succeeds; every failing connection
(and only those) is removed from the registry, every succeeding one stays
registered, and no single failure suppresses delivery to the others. -/
theorem claim_C8_broadcast (ok : Conn → Bool) (active : List Conn) (h : active.Nodup) :
    (broadcast ok active).1 = active.filter ok ∧
    (broadcast ok active).2 = active.filter ok ∧
    ∀ c ∈ active,
      (ok c = true → c ∈ (broadcast ok active).1 ∧ c ∈ (broadcast ok active).2) ∧
      (ok c = false → c ∉ (broadcast ok active).2) := by
  have h1 : (broadcast ok active).1 = active.filter ok := by
    unfold broadcast
    split
    · rename_i he
      rw [he]
      rfl
    · rfl
  have h2 : (broadcast ok active).2 = active.filter ok := by
    unfold broadcast
    split
    · rename_i he
      rw [he]
      rfl
    · exact foldl_disconnect_filter ok active h
  refine ⟨h1, h2, ?_⟩
  intro c hc
  constructor
  · intro hok
    rw [h1, h2]
    exact ⟨List.mem_filter.mpr ⟨hc, hok⟩, List.mem_filter.mpr ⟨hc, hok⟩⟩
  · intro hok
    rw [h2]
    intro hmem
    have := (List.mem_filter.mp hmem).2
    rw [hok] at this
    exact Bool.false_ne_true this

/-- The send outcome used by the C8 witness: connection 2 is broken. -/
def ok_c8 : Conn → Bool := fun c => c != 2

/-- Witness for C8 on the concrete registry [1, 2, 3] where connection 2's
send fails: 1 and 3 still receive the message and stay registered, 2 is
removed. -/
theorem claim_C8_broadcast_witness :
    (broadcast ok_c8 [1, 2, 3]).1 = [1, 2, 3].filter ok_c8 ∧
    (broadcast ok_c8 [1, 2, 3]).2 = [1, 2, 3].filter ok_c8 ∧
    ∀ c ∈ [1, 2, 3],
      (ok_c8 c = true → c ∈ (broadcast ok_c8 [1, 2, 3]).1 ∧
        c ∈ (broadcast ok_c8 [1, 2, 3]).2) ∧
      (ok_c8 c = false → c ∉ (broadcast ok_c8 [1, 2, 3]).2) :=
  claim_C8_broadcast ok_c8 [1, 2, 3] (by decide)

/-- The underlying Redis client of `RedisStorage`: every call can either
succeed with a value or raise (`Except.error`). Stored field values are the
strings produced by `str(value)`; the JSON framing of list entries and the
pub/sub payload is abstracted to the structured key-value data itself. -/
structure RedisConn where
  hset : String → String → String → Except String Unit
  hset_mapping : String → List (String × String) → Except String Unit
  expire : String → ℕ → Except String Unit
  lpush : String → List (String × String) → Except String Unit
  ltrim : String → ℕ → ℕ → Except String Unit
  keys : String → Except String (List String)
  hgetall : String → Except String (List (String × String))
  publish : String → List (String × Option String) → Except String Unit

/-- A `try:`/`except:` block that logs and continues: a raised error is
swallowed and the default result is returned. -/
def caught (x : Except String α) (d : α) : Except String α :=
  match x with
  | .ok a => .ok a
  | .error _ => .ok d

def except_ok : Except ε α → Bool
  | .ok _ => true
  | .error _ => false

theorem caught_ok (x : Except String α) (d : α) : except_ok (caught x d) = true := by
  cases x <;> rfl

/-- `RedisStorage.connect`: on any failure of the connection attempt the
client is left as `None` ("for development, continue without Redis"). -/
def connect (attempt : Except String RedisConn) : Option RedisConn :=
  match attempt with
  | .ok r => some r
  | .error _ => none

/-- The per-field `hset` loop of `store_bus_position`. -/
def hset_each (r : RedisConn) (key : String) : List (String × String) → Except String Unit
  | [] => .ok ()
  | (f, v) :: rest => do
    r.hset key f v
    hset_each r key rest

/-- `{k: v for k, v in bus_data.items() if v is not None}`. -/
def filtered_fields (data : List (String × Option String)) : List (String × String) :=
  data.filterMap (fun kv => kv.2.map (fun v => (kv.1, v)))

/-- The history entry of `store_bus_position`: the lat/lon/timestamp/speed
projection of the report, with `None` values filtered out. -/
def position_entry_fields (data : List (String × Option String)) : List (String × String) :=
  ["lat", "lon", "timestamp", "speed"].filterMap
    (fun k => ((data.lookup k).join).map (fun v => (k, v)))

/-- `RedisStorage.store_bus_position`: a no-op without a connection; otherwise
store the non-None fields under `bus:{id}` with a 300 s TTL and push the
position entry onto `bus:{id}:history` (trimmed to 60, 3600 s TTL); any raise
is logged and swallowed. -/
def store_bus_position (redis : Option RedisConn) (bus_id : String)
    (bus_data : List (String × Option String)) : Except String Unit :=
  match redis with
  | none => .ok ()
  | some r =>
    caught (do
      let filtered := filtered_fields bus_data
      if filtered ≠ [] then
        hset_each r ("bus:" ++ bus_id) filtered
        r.expire ("bus:" ++ bus_id) 300
      let entry := position_entry_fields bus_data
      if entry ≠ [] then
        r.lpush ("bus:" ++ bus_id ++ ":history") entry
        r.ltrim ("bus:" ++ bus_id ++ ":history") 0 59
        r.expire ("bus:" ++ bus_id ++ ":history") 3600
      pure ()) ()

/-- `RedisStorage.get_bus_position`: `None` without a connection; otherwise the
hash at `bus:{id}` when non-empty (the typed float re-parsing of the fields is
abstracted; its failures are failure modes of the call inside the `try`);
`None` on an empty hash or any raise. -/
def get_bus_position (redis : Option RedisConn) (bus_id : String) :
    Except String (Option (List (String × String))) :=
  match redis with
  | none => .ok none
  | some r =>
    caught (do
      let data ← r.hgetall ("bus:" ++ bus_id)
      if data ≠ [] then
        pure (some data)
      else
        pure none) none

/-- The per-key `hgetall` loop of `get_all_bus_positions` (empty hashes are
skipped). -/
def collect_hashes (r : RedisConn) :
    List String → Except String (List (List (String × String)))
  | [] => .ok []
  | k :: rest => do
    let data ← r.hgetall k
    let more ← collect_hashes r rest
    pure (if data = [] then more else data :: more)

/-- `RedisStorage.get_all_bus_positions`: `[]` without a connection; otherwise
every non-empty hash under a `bus:*` key that is not a `:history` key; `[]` on
any raise. -/
def get_all_bus_positions (redis : Option RedisConn) :
    Except String (List (List (String × String))) :=
  match redis with
  | none => .ok []
  | some r =>
    caught (do
      let ks ← r.keys "bus:*"
      let position_keys := ks.filter (fun k => ! k.endsWith ":history")
      collect_hashes r position_keys) []

/-- `RedisStorage.publish_bus_update`: a no-op without a connection; publish on
the `bus_updates` channel otherwise; any raise is swallowed. -/
def publish_bus_update (redis : Option RedisConn)
    (bus_data : List (String × Option String)) : Except String Unit :=
  match redis with
  | none => .ok ()
  | some r => caught (r.publish "bus_updates" bus_data) ()

/-- `RedisStorage.store_route_cache`: a no-op without a connection; otherwise
store the mapping under `route:{id}` with a 86400 s TTL; raises swallowed. -/
def store_route_cache (redis : Option RedisConn) (route_id : String)
    (route_data : List (String × String)) : Except String Unit :=
  match redis with
  | none => .ok ()
  | some r =>
    caught (do
      r.hset_mapping ("route:" ++ route_id) route_data
      r.expire ("route:" ++ route_id) 86400) ()

/-- `RedisStorage.get_route_cache`: `None` without a connection; otherwise the
hash at `route:{id}` when non-empty; `None` on an empty hash or any raise. -/
def get_route_cache (redis : Option RedisConn) (route_id : String) :
    Except String (Option (List (String × String))) :=
  match redis with
  | none => .ok none
  | some r =>
    caught (do
      let data ← r.hgetall ("route:" ++ route_id)
      pure (if data ≠ [] then some data else none)) none

/-- Claim C9: every durable-store operation degrades to a benign no-op result
when the store is unavailable — with no connection it returns its default
(unit, `none` or `[]`) immediately, and for every connection and every outcome
of the underlying calls it returns `.ok` (exceptions are caught, never
propagated); a failed connection attempt leaves the client absent. -/
theorem claim_C9_degrade :
    (∀ bus_id bus_data, store_bus_position none bus_id bus_data = .ok ()) ∧
    (∀ redis bus_id bus_data, except_ok (store_bus_position redis bus_id bus_data) = true) ∧
    (∀ bus_id, get_bus_position none bus_id = .ok none) ∧
    (∀ redis bus_id, except_ok (get_bus_position redis bus_id) = true) ∧
    (∀ (r : RedisConn) (bus_id e : String), r.hgetall ("bus:" ++ bus_id) = .error e →
      get_bus_position (some r) bus_id = .ok none) ∧
    (get_all_bus_positions none = .ok []) ∧
    (∀ redis, except_ok (get_all_bus_positions redis) = true) ∧
    (∀ (r : RedisConn) (e : String), r.keys "bus:*" = .error e →
      get_all_bus_positions (some r) = .ok []) ∧
    (∀ bus_data, publish_bus_update none bus_data = .ok ()) ∧
    (∀ redis bus_data, except_ok (publish_bus_update redis bus_data) = true) ∧
    (∀ route_id route_data, store_route_cache none route_id route_data = .ok ()) ∧
    (∀ redis route_id route_data,
      except_ok (store_route_cache redis route_id route_data) = true) ∧
    (∀ route_id, get_route_cache none route_id = .ok none) ∧
    (∀ redis route_id, except_ok (get_route_cache redis route_id) = true) ∧
    (∀ (attempt : Except String RedisConn) (e : String), attempt = .error e →
      connect attempt = none) := by
  refine ⟨fun _ _ => rfl, ?_, fun _ => rfl, ?_, ?_, rfl, ?_, ?_, fun _ => rfl, ?_,
    fun _ _ => rfl, ?_, fun _ => rfl, ?_, ?_⟩
  · intro redis bus_id bus_data
    cases redis with
    | none => rfl
    | some r => exact caught_ok _ _
  · intro redis bus_id
    cases redis with
    | none => rfl
    | some r => exact caught_ok _ _
  · intro r bus_id e he
    unfold get_bus_position
    dsimp only
    rw [he]
    rfl
  · intro redis
    cases redis with
    | none => rfl
    | some r => exact caught_ok _ _
  · intro r e he
    unfold get_all_bus_positions
    dsimp only
    rw [he]
    rfl
  · intro redis bus_data
    cases redis with
    | none => rfl
    | some r => exact caught_ok _ _
  · intro redis route_id route_data
    cases redis with
    | none => rfl
    | some r => exact caught_ok _ _
  · intro redis route_id
    cases redis with
    | none => rfl
    | some r => exact caught_ok _ _
  · intro attempt e he
    rw [he]
    rfl

/-- A connection whose every underlying call raises. -/
def dead_conn : RedisConn :=
  { hset := fun _ _ _ => .error "down",
    hset_mapping := fun _ _ => .error "down",
    expire := fun _ _ => .error "down",
    lpush := fun _ _ => .error "down",
    ltrim := fun _ _ _ => .error "down",
    keys := fun _ => .error "down",
    hgetall := fun _ => .error "down",
    publish := fun _ _ => .error "down" }

/-- Witness for C9 at concrete inputs: an absent client and a client whose
calls all raise both degrade to the benign defaults. -/
theorem claim_C9_degrade_witness :
    store_bus_position none "B1" [("lat", some "39.0")] = .ok () ∧
    get_bus_position (some dead_conn) "B1" = .ok none ∧
    get_all_bus_positions (some dead_conn) = .ok [] ∧
    except_ok (store_bus_position (some dead_conn) "B1" [("lat", some "39.0")]) = true ∧
    connect (.error "down") = none := by
  obtain ⟨h1, h2, _, _, h5, _, _, h8, _, _, _, _, _, _, h15⟩ := claim_C9_degrade
  exact ⟨h1 "B1" [("lat", some "39.0")], h5 dead_conn "B1" "down" rfl,
    h8 dead_conn "down" rfl, h2 (some dead_conn) "B1" [("lat", some "39.0")],
    h15 (.error "down") "down" rfl⟩
